import Mathlib

/-
  Verification of the bitcoinecho-gui client logic.

  The definitions below are shallow embeddings of the TypeScript sources:
  - src/lib/rpc/types.ts        (RPC data shapes, milestone table and queries)
  - src/lib/rpc/client.ts       (single and batched JSON-RPC result handling)
  - src/lib/stores/connection.ts (statsChanged, disconnect, fetchExternalData)
  - src/lib/stores/nodeMode.ts  (detectMode)
  - src/lib/stores/sessionHistory.ts (session ledger and its persistence)
  - src/routes/sync/+page.svelte (isSynced, checkMilestones)

  JavaScript numbers are embedded as Nat for block heights and counters
  (the sources only ever hold non-negative integers there), as Int for
  timestamps and millisecond durations, and as Rat for the two
  floating-point display quantities (percentages and hashrate) on which
  the code performs no arithmetic beyond zero tests and storage.
  Date.now() and the generated session id are passed as explicit
  parameters. localStorage is an explicit record threaded through the
  session-history operations. Display-only string fields that no logic
  reads (milestone descriptions, dates, icons, urls) are omitted.
-/

namespace BitcoinEcho

/-- Per-message-type counters of getobserverstats (types.ts, ObserverStats.messages_received). -/
structure MessagesReceived where
  version : Nat
  verack : Nat
  ping : Nat
  pong : Nat
  addr : Nat
  inv : Nat
  getdata : Nat
  block : Nat
  tx : Nat
  headers : Nat
  getblocks : Nat
  getheaders : Nat
  other : Nat
deriving DecidableEq, Repr

/-- Observer statistics snapshot (types.ts, ObserverStats). The mode tag is
a string at the JSON boundary; the declared union is observer | full. -/
structure ObserverStats where
  mode : String
  uptime_seconds : Nat
  peer_count : Nat
  start_height : Nat
  messages_received : MessagesReceived
deriving DecidableEq, Repr

/-- Blockchain info snapshot (types.ts, BlockchainInfo). The floating-point
display fields difficulty and verificationprogress are not read by any
logic under verification and are omitted. -/
structure BlockchainInfo where
  chain : String
  blocks : Nat
  headers : Nat
  bestblockhash : String
  mediantime : Int
  initialblockdownload : Bool
  chainwork : String
  size_on_disk : Nat
  pruned : Bool
  pruneheight : Option Nat
  prune_target_size : Option Nat
deriving DecidableEq, Repr

/-- Connection status union (types.ts, ConnectionStatus). -/
inductive ConnectionStatus where
  | disconnected
  | connecting
  | connected
  | error
deriving DecidableEq, Repr

/-- RPC client configuration (types.ts, RPCConfig). -/
structure RPCConfig where
  endpoint : String
  timeout : Nat
deriving DecidableEq, Repr

/-
  connection.ts — statsChanged (lines 142-159)
-/

/-- Deep comparison of observer stats (connection.ts, statsChanged).
The source compares peer_count, uptime_seconds and exactly eight of the
thirteen message counters; it does not look at mode, start_height, or the
addr, headers, getblocks, getheaders and other counters. -/
def statsChanged (oldStats newStats : Option ObserverStats) : Bool :=
  match oldStats, newStats with
  | none, none => false
  | none, some _ => true
  | some _, none => true
  | some o, some n =>
    (o.peer_count != n.peer_count) ||
    (o.uptime_seconds != n.uptime_seconds) ||
    (o.messages_received.version != n.messages_received.version) ||
    (o.messages_received.verack != n.messages_received.verack) ||
    (o.messages_received.ping != n.messages_received.ping) ||
    (o.messages_received.pong != n.messages_received.pong) ||
    (o.messages_received.inv != n.messages_received.inv) ||
    (o.messages_received.getdata != n.messages_received.getdata) ||
    (o.messages_received.block != n.messages_received.block) ||
    (o.messages_received.tx != n.messages_received.tx)

/-
  sync/+page.svelte — isSynced (lines 285-297)

  networkHeight is the mempool.space height; validatedHeight is
  chainInfo.blocks; blocksRemaining = Math.max(0, networkHeight -
  validatedHeight), which over non-negative integers is Nat subtraction.
-/

/-- blocksRemaining derived value (sync/+page.svelte line 273). -/
def blocksRemaining (networkHeight validatedHeight : Nat) : Nat :=
  networkHeight - validatedHeight

/-- The triangulated sync determination (sync/+page.svelte, isSynced). -/
def isSynced (chainInfo : Option BlockchainInfo) (networkHeight : Nat) : Bool :=
  match chainInfo with
  | none => false
  | some info =>
    if info.initialblockdownload then false
    else if info.blocks = 0 ∧ 0 < networkHeight then false
    else if 10 < blocksRemaining networkHeight info.blocks then false
    else true

/-- A chain-info snapshot with initialblockdownload false, used for the
concrete isSynced evaluations. -/
def sampleChainInfo (blocks : Nat) : BlockchainInfo :=
  { chain := "main", blocks := blocks, headers := blocks, bestblockhash := "",
    mediantime := 0, initialblockdownload := false, chainwork := "",
    size_on_disk := 0, pruned := false, pruneheight := none,
    prune_target_size := none }

/-
  nodeMode.ts — detectMode (lines 57-74)
-/

/-- Node operating mode (nodeMode.ts, NodeMode). -/
inductive NodeMode where
  | observer
  | validateLite
  | validateArchival
  | unknown
deriving DecidableEq, Repr

/-- Mode detection from the pair of RPC snapshots (nodeMode.ts, detectMode). -/
def detectMode (stats : Option ObserverStats) (info : Option BlockchainInfo) : NodeMode :=
  match stats with
  | none => .unknown
  | some s =>
    if s.mode = "observer" then .observer
    else if s.mode = "full" then
      match info with
      | some i => if i.pruned then .validateLite else .validateArchival
      | none => .validateArchival
    else .unknown

/-
  lib/data/milestones (shipped in types.ts) — the static milestone table
  and the interval query used by the sync page.
-/

/-- Milestone category (MilestoneCategory). -/
inductive MilestoneCategory where
  | genesis
  | halving
  | protocol
  | historic
deriving DecidableEq, Repr

/-- A historical milestone. The display-only description, date, icon and
url strings are not read by the checking logic and are omitted. -/
structure Milestone where
  height : Nat
  title : String
  category : MilestoneCategory
deriving DecidableEq, Repr

/-- The embedded static milestone list, ordered by block height. -/
def MILESTONES : List Milestone := [
  ⟨0, "Genesis Block", .genesis⟩,
  ⟨170, "First Transaction", .historic⟩,
  ⟨57043, "Bitcoin Pizza Day", .historic⟩,
  ⟨173805, "P2SH Activates", .protocol⟩,
  ⟨210000, "First Halving", .halving⟩,
  ⟨227931, "BIP-34 Activates", .protocol⟩,
  ⟨363725, "BIP-66 Activates", .protocol⟩,
  ⟨388381, "CHECKLOCKTIMEVERIFY Activates", .protocol⟩,
  ⟨419328, "CHECKSEQUENCEVERIFY Activates", .protocol⟩,
  ⟨420000, "Second Halving", .halving⟩,
  ⟨481824, "SegWit Activates", .protocol⟩,
  ⟨630000, "Third Halving", .halving⟩,
  ⟨709632, "Taproot Activates", .protocol⟩,
  ⟨840000, "Fourth Halving", .halving⟩]

/-- The SegWit activation milestone, height 481824. -/
def segwitMilestone : Milestone := ⟨481824, "SegWit Activates", .protocol⟩

/-- The genesis milestone, height 0. -/
def genesisMilestone : Milestone := ⟨0, "Genesis Block", .genesis⟩

/-- All milestones between two heights, inclusive (getMilestonesBetween). -/
def getMilestonesBetween (fromHeight toHeight : Nat) : List Milestone :=
  MILESTONES.filter
    (fun m => decide (fromHeight ≤ m.height) && decide (m.height ≤ toHeight))

/-
  sync/+page.svelte — checkMilestones (lines 165-189) and
  dismissMilestone (lines 194-199).

  The component state is lastMilestoneCheckHeight (0 until the first
  poll establishes a baseline), the set of heights dismissed this
  browsing session, and the currently shown notification.
-/

/-- Milestone-tracking component state (sync/+page.svelte lines 73-75). -/
structure MilestoneState where
  lastMilestoneCheckHeight : Nat
  dismissedMilestones : List Nat
  currentMilestoneNotification : Option Milestone
deriving DecidableEq, Repr

/-- The initial component state. -/
def initialMilestoneState : MilestoneState := ⟨0, [], none⟩

/-- The for-loop of checkMilestones: scan the passed milestones from the
most recent backwards for the first one not already dismissed. -/
def firstNotDismissed (dismissed : List Nat) (passed : List Milestone) :
    Option Milestone :=
  passed.reverse.find? (fun m => !(dismissed.contains m.height))

/-- The milestone a single checkMilestones step newly surfaces: none when
the step only establishes the baseline, when the height did not advance,
or when every milestone in the crossed interval was dismissed. -/
def surfacedMilestone (st : MilestoneState) (currentHeight : Nat) :
    Option Milestone :=
  if st.lastMilestoneCheckHeight = 0 then none
  else if currentHeight ≤ st.lastMilestoneCheckHeight then none
  else firstNotDismissed st.dismissedMilestones
    (getMilestonesBetween (st.lastMilestoneCheckHeight + 1) currentHeight)

/-- One poll of checkMilestones at the given current height. -/
def checkMilestones (st : MilestoneState) (currentHeight : Nat) : MilestoneState :=
  if st.lastMilestoneCheckHeight = 0 then
    { st with lastMilestoneCheckHeight := currentHeight }
  else if currentHeight ≤ st.lastMilestoneCheckHeight then st
  else
    match firstNotDismissed st.dismissedMilestones
      (getMilestonesBetween (st.lastMilestoneCheckHeight + 1) currentHeight) with
    | some m =>
      { st with currentMilestoneNotification := some m,
                lastMilestoneCheckHeight := currentHeight }
    | none => { st with lastMilestoneCheckHeight := currentHeight }

/-- dismissMilestone: record the shown milestone height as dismissed and
clear the notification. -/
def dismissMilestone (st : MilestoneState) : MilestoneState :=
  match st.currentMilestoneNotification with
  | some m =>
    { st with dismissedMilestones := st.dismissedMilestones ++ [m.height],
              currentMilestoneNotification := none }
  | none => st

/-
  sessionHistory.ts — the session history ledger and its localStorage
  persistence. Date.now() and the generated session id are explicit
  parameters; localStorage is the SessionStorage record, with one field
  per fixed storage key; the try/catch around localStorage writes is the
  success path (a failed write is swallowed by the source).
-/

/-- A single sync session record (sessionHistory.ts, SyncSession). -/
structure SyncSession where
  id : String
  startTime : Int
  endTime : Option Int
  startBlocks : Nat
  endBlocks : Option Nat
  networkHeight : Nat
deriving DecidableEq, Repr

/-- Sync completion record (sessionHistory.ts, SyncCompletion). -/
structure SyncCompletion where
  completedAt : Int
  totalSessions : Nat
  totalBlocks : Nat
  totalTimeMs : Int
deriving DecidableEq, Repr

/-- In-memory session history state (sessionHistory.ts, SessionHistoryState). -/
structure SessionHistoryState where
  sessions : List SyncSession
  currentSession : Option SyncSession
  completion : Option SyncCompletion
  lastKnownHeight : Nat
  lastKnownProgress : Rat
deriving DecidableEq, Repr

/-- The persisted localStorage slots, one per fixed key
(bitcoin-echo-sessions, -sync-completion, -last-height, -last-progress). -/
structure SessionStorage where
  storedSessions : Option (List SyncSession)
  storedCompletion : Option SyncCompletion
  storedLastHeight : Option Nat
  storedLastProgress : Option Rat
deriving DecidableEq, Repr

/-- saveState (sessionHistory.ts lines 110-125): writes the session list
and the two scalars unconditionally, and the completion record only when
one is set. -/
def saveState (state : SessionHistoryState) (store : SessionStorage) :
    SessionStorage :=
  { storedSessions := some state.sessions,
    storedCompletion :=
      match state.completion with
      | some c => some c
      | none => store.storedCompletion,
    storedLastHeight := some state.lastKnownHeight,
    storedLastProgress := some state.lastKnownProgress }

/-- The in-memory state paired with the persisted storage. -/
abbrev SessionHistory := SessionHistoryState × SessionStorage

/-- The state held before any session was recorded. -/
def emptySessionHistoryState : SessionHistoryState := ⟨[], none, none, 0, 0⟩

/-- Storage with nothing written yet. -/
def emptySessionStorage : SessionStorage := ⟨none, none, none, none⟩

/-- startSession (sessionHistory.ts lines 149-172): a no-op when a session
is already open; otherwise opens a new session and moves the in-memory
last-known height. The source performs no saveState call here, so the
storage component is returned unchanged. -/
def startSession (p : SessionHistory) (currentBlocks networkHeight : Nat)
    (sessionId : String) (now : Int) : SessionHistory :=
  match p.1.currentSession with
  | some _ => p
  | none =>
    let session : SyncSession :=
      { id := sessionId, startTime := now, endTime := none,
        startBlocks := currentBlocks, endBlocks := none,
        networkHeight := networkHeight }
    ({ p.1 with currentSession := some session,
                lastKnownHeight := currentBlocks }, p.2)

/-- updateProgress (sessionHistory.ts lines 178-188): moves the two
resume scalars and saves. -/
def updateProgress (p : SessionHistory) (currentBlocks : Nat)
    (progress : Rat) : SessionHistory :=
  let s := { p.1 with lastKnownHeight := currentBlocks,
                      lastKnownProgress := progress }
  (s, saveState s p.2)

/-- endSession (sessionHistory.ts lines 194-214): a no-op without an open
session; otherwise closes it, appends it to the session list and saves. -/
def endSession (p : SessionHistory) (endBlocks : Nat) (now : Int) :
    SessionHistory :=
  match p.1.currentSession with
  | none => p
  | some cs =>
    let ended : SyncSession :=
      { cs with endTime := some now, endBlocks := some endBlocks }
    let s := { p.1 with sessions := p.1.sessions ++ [ended],
                        currentSession := none,
                        lastKnownHeight := endBlocks }
    (s, saveState s p.2)

/-- The reduce of markComplete (lines 231-236). The JS truthiness test
endTime and startTime makes a session with a 0 timestamp contribute
nothing. -/
def sessionsTotalTime (sessions : List SyncSession) : Int :=
  sessions.foldl
    (fun total s =>
      match s.endTime with
      | some e => if e ≠ 0 ∧ s.startTime ≠ 0 then total + (e - s.startTime) else total
      | none => total) 0

/-- markComplete (sessionHistory.ts lines 220-255): ends the open session
if any, recomputes the totals from the full session list, installs a
fresh completion record stamped now, and saves. -/
def markComplete (p : SessionHistory) (totalBlocks : Nat) (now : Int) :
    SessionHistory :=
  let p1 := match p.1.currentSession with
    | some _ => endSession p totalBlocks now
    | none => p
  let completion : SyncCompletion :=
    { completedAt := now, totalSessions := p1.1.sessions.length,
      totalBlocks := totalBlocks,
      totalTimeMs := sessionsTotalTime p1.1.sessions }
  let s := { p1.1 with completion := some completion,
                       lastKnownHeight := totalBlocks,
                       lastKnownProgress := 100 }
  (s, saveState s p1.2)

/-- An interaction with the milestone tracker: a poll at a height, or a
dismissal of the shown notification. -/
inductive MilestoneEvent where
  | poll (height : Nat)
  | dismiss
deriving DecidableEq, Repr

/-- One step of the milestone tracker. -/
def milestoneStep (st : MilestoneState) (e : MilestoneEvent) : MilestoneState :=
  match e with
  | .poll h => checkMilestones st h
  | .dismiss => dismissMilestone st

/-
  connection.ts — the connection state record, disconnect and
  fetchExternalData. Date.now() and the values returned by the two
  mempool.space fetches are explicit parameters; both fetch helpers
  return 0 on any failure, so a plain number models their result.
-/

/-- The connection store state (connection.ts, ConnectionState). -/
structure ConnectionState where
  status : ConnectionStatus
  config : RPCConfig
  lastError : Option String
  lastCheck : Option Int
  stats : Option ObserverStats
  blockHeight : Nat
  lastBlockHeightFetch : Int
  networkHashrate : Rat
deriving DecidableEq, Repr

/-- How often to refresh block height, milliseconds (connection.ts line 79). -/
def BLOCK_HEIGHT_REFRESH_INTERVAL : Int := 30000

/-- disconnect (connection.ts lines 273-280): stop polling, mark the
status disconnected and drop the cached stats. -/
def disconnect (s : ConnectionState) : ConnectionState :=
  { s with status := .disconnected, stats := none }

/-- fetchExternalData (connection.ts lines 346-370). The returned flag
records whether the mempool.space requests were issued. A fetched value
of 0 is falsy in the source, so it keeps the prior stored value, and the
guard ignores the refresh window while blockHeight is still 0. -/
def fetchExternalData (s : ConnectionState) (now : Int)
    (fetchedHeight : Nat) (fetchedHashrate : Rat) : ConnectionState × Bool :=
  if s.blockHeight ≠ 0 ∧ now - s.lastBlockHeightFetch < BLOCK_HEIGHT_REFRESH_INTERVAL then
    (s, false)
  else if fetchedHeight ≠ 0 ∨ fetchedHashrate ≠ 0 then
    ({ s with
        blockHeight := if fetchedHeight = 0 then s.blockHeight else fetchedHeight,
        networkHashrate :=
          if fetchedHashrate = 0 then s.networkHashrate else fetchedHashrate,
        lastBlockHeightFetch := now }, true)
  else (s, true)

/-
  client.ts — result handling of the single and batched JSON-RPC calls,
  after a 2xx HTTP response has been parsed. The parsed result member is
  a three-valued field: absent from the JSON object, JSON null, or a
  value; the error member is null or an error object (an object is always
  truthy). Thrown errors are the failure side of an Except.
-/

/-- JSON-RPC error object (types.ts, RPCError). -/
structure RPCError where
  code : Int
  message : String
deriving DecidableEq, Repr

/-- A parsed JSON member that may be absent, JSON null, or a value. -/
inductive JsonField (α : Type) where
  | missing
  | null
  | value (v : α)
deriving DecidableEq, Repr

/-- JSON-RPC response envelope as parsed (types.ts, RPCResponse). -/
structure RPCResponse (α : Type) where
  result : JsonField α
  error : Option RPCError
  id : Int
deriving DecidableEq, Repr

/-- The distinct failures the two checking passes can throw. -/
inductive RpcFailure where
  | rpcError (code : Int) (message : String)
  | nullResult
  | batchItemError (index : Nat) (code : Int) (message : String)
  | batchNullResult (index : Nat)
deriving DecidableEq, Repr

/-- Single-call handling (client.ts, rpcCall lines 76-87): an error member
throws, a result member that is JSON null throws the Null-Result error,
and otherwise rpcResponse.result is returned as-is — when the member is
absent, the absent value (undefined) is returned to the caller, modelled
as ok none; a present value is ok some. -/
def rpcCallResult {α : Type} (resp : RPCResponse α) : Except RpcFailure (Option α) :=
  match resp.error with
  | some e => .error (.rpcError e.code e.message)
  | none =>
    match resp.result with
    | .null => .error .nullResult
    | .missing => .ok none
    | .value v => .ok (some v)

/-- Batched per-item handling (client.ts, rpcBatchCall lines 157-169): an
error member throws, and a result member that is JSON null or absent
throws the per-item Null-Result error. -/
def rpcBatchItem {α : Type} (index : Nat) (resp : RPCResponse α) :
    Except RpcFailure α :=
  match resp.error with
  | some e => .error (.batchItemError index e.code e.message)
  | none =>
    match resp.result with
    | .null => .error (.batchNullResult index)
    | .missing => .error (.batchNullResult index)
    | .value v => .ok v

/-- The batched map over the response array (client.ts lines 157-169):
the first throwing item fails the whole call. -/
def rpcBatchResults {α : Type} (resps : List (RPCResponse α)) :
    Except RpcFailure (List α) :=
  resps.enum.mapM (fun p => rpcBatchItem p.1 p.2)

/-
  Named concrete states and observation predicates used by the theorems.
-/

/-- The fields statsChanged actually compares, as a proposition. -/
def trackedFieldDiffers (a b : ObserverStats) : Prop :=
  a.peer_count ≠ b.peer_count ∨
  a.uptime_seconds ≠ b.uptime_seconds ∨
  a.messages_received.version ≠ b.messages_received.version ∨
  a.messages_received.verack ≠ b.messages_received.verack ∨
  a.messages_received.ping ≠ b.messages_received.ping ∨
  a.messages_received.pong ≠ b.messages_received.pong ∨
  a.messages_received.inv ≠ b.messages_received.inv ∨
  a.messages_received.getdata ≠ b.messages_received.getdata ∨
  a.messages_received.block ≠ b.messages_received.block ∨
  a.messages_received.tx ≠ b.messages_received.tx

/-- A fixed counter record for concrete snapshots. -/
def sampleCounters : MessagesReceived :=
  { version := 3, verack := 3, ping := 40, pong := 41, addr := 7, inv := 200,
    getdata := 5, block := 2, tx := 150, headers := 9, getblocks := 1,
    getheaders := 4, other := 0 }

/-- An observer-mode snapshot. -/
def sampleStatsObserver : ObserverStats :=
  { mode := "observer", uptime_seconds := 600, peer_count := 8,
    start_height := 850000, messages_received := sampleCounters }

/-- The same snapshot with only the mode tag changed to full. -/
def sampleStatsFull : ObserverStats :=
  { sampleStatsObserver with mode := "full" }

/-- The milestone state after the concrete first poll at height 480000. -/
def afterFirstPoll : MilestoneState := ⟨480000, [], none⟩

/-- The milestone state after the concrete second poll at height 482000. -/
def afterSecondPoll : MilestoneState := ⟨482000, [], some segwitMilestone⟩

/-- Storage slots agreeing with the in-memory ledger on the session list
and the two resume scalars. -/
def storageMatches (s : SessionHistoryState) (store : SessionStorage) : Prop :=
  store.storedSessions = some s.sessions ∧
  store.storedLastHeight = some s.lastKnownHeight ∧
  store.storedLastProgress = some s.lastKnownProgress

/-- A connected state with a non-zero stored block height, fetched one
second before the observation time 2000. -/
def connectedState : ConnectionState :=
  { status := .connected,
    config := { endpoint := "http://localhost:8332", timeout := 15000 },
    lastError := none, lastCheck := some 1000, stats := none,
    blockHeight := 800000, lastBlockHeightFetch := 1000, networkHashrate := 500 }

/-- The same state after a fetch that returned height zero. -/
def zeroHeightState : ConnectionState :=
  { connectedState with blockHeight := 0 }

end BitcoinEcho

namespace BitcoinEcho

/-- C1: with chain info present, isSynced follows the triangulation rule —
not synced when the node reports IBD, when no blocks are validated while
the network has some, or when more than 10 blocks behind; synced
otherwise. The three concrete snapshots evaluate as the spec states. -/
theorem c1_isSynced_triangulation :
    (∀ (info : BlockchainInfo) (networkHeight : Nat),
      isSynced (some info) networkHeight = true ↔
        (info.initialblockdownload = false ∧
         ¬(info.blocks = 0 ∧ 0 < networkHeight) ∧
         networkHeight - info.blocks ≤ 10)) ∧
    isSynced (some (sampleChainInfo 0)) 800000 = false ∧
    isSynced (some (sampleChainInfo 799995)) 800000 = true ∧
    isSynced (some (sampleChainInfo 799988)) 800000 = false := by
  refine ⟨?_, by decide, by decide, by decide⟩
  intro info networkHeight
  simp only [isSynced, blocksRemaining]
  split_ifs with h1 h2 h3 <;> simp_all <;> omega

lemma statsChanged_some_iff (a b : ObserverStats) :
    statsChanged (some a) (some b) = true ↔ trackedFieldDiffers a b := by
  simp only [statsChanged, trackedFieldDiffers, Bool.or_eq_true, bne_iff_ne, ne_eq]
  tauto

/-- C2 counterexample: two snapshots that differ only in the mode tag — a
tracked field per the claim — are reported unchanged by statsChanged, so
statsChanged does not return true whenever a tracked field of the claim
differs. -/
theorem c2_statsChanged_mode_ignored :
    sampleStatsObserver.mode ≠ sampleStatsFull.mode ∧
    statsChanged (some sampleStatsObserver) (some sampleStatsFull) = false := by
  constructor
  · decide
  · decide

/-- C2 amended: statsChanged is symmetric and reflexive-false (including
null against null), and for two present snapshots it is true exactly when
one of the fields it compares differs — peer count, uptime, or the version,
verack, ping, pong, inv, getdata, block and tx counters; the mode tag, the
start height and the addr, headers, getblocks, getheaders and other
counters are not compared. -/
theorem c2_statsChanged_amended :
    (∀ a b : Option ObserverStats, statsChanged a b = statsChanged b a) ∧
    (∀ s : Option ObserverStats, statsChanged s s = false) ∧
    (∀ a b : ObserverStats,
      statsChanged (some a) (some b) = true ↔ trackedFieldDiffers a b) := by
  refine ⟨?_, ?_, statsChanged_some_iff⟩
  · intro a b
    cases a with
    | none => cases b <;> rfl
    | some a =>
      cases b with
      | none => rfl
      | some b =>
        rw [Bool.eq_iff_iff, statsChanged_some_iff, statsChanged_some_iff]
        unfold trackedFieldDiffers
        tauto
  · intro s
    cases s with
    | none => rfl
    | some s => simp [statsChanged]

/-- The notification after a checkMilestones step is the newly surfaced
milestone when there is one, and the previous notification otherwise. -/
lemma checkMilestones_notif (st : MilestoneState) (h : Nat) :
    (checkMilestones st h).currentMilestoneNotification =
      (surfacedMilestone st h).or st.currentMilestoneNotification := by
  unfold checkMilestones surfacedMilestone
  split_ifs with h1 h2
  · rfl
  · rfl
  · cases hf : firstNotDismissed st.dismissedMilestones
      (getMilestonesBetween (st.lastMilestoneCheckHeight + 1) h) <;>
      simp [Option.or]

/-- A milestone at or below the checkpoint height is never surfaced by a
step: the crossed interval starts strictly above the checkpoint. -/
lemma not_surfaced_of_checked (st : MilestoneState) (h : Nat) (m : Milestone)
    (hm : m.height ≤ st.lastMilestoneCheckHeight) :
    surfacedMilestone st h ≠ some m := by
  unfold surfacedMilestone firstNotDismissed
  split_ifs with h1 h2
  · simp
  · simp
  · intro heq
    have hmem := List.mem_of_find?_eq_some heq
    rw [List.mem_reverse] at hmem
    simp only [getMilestonesBetween] at hmem
    have hp := (List.mem_filter.mp hmem).2
    simp only [Bool.and_eq_true, decide_eq_true_eq] at hp
    omega

/-- C3: milestone crossing. The first poll only establishes the baseline
and surfaces nothing; the interval query collects exactly the milestones
in the half-open interval above the previous checkpoint; the notification
after a step is the surfaced milestone or else the prior one; a poll that
advances the height always moves the checkpoint to the current height; and
in the concrete run a baseline of 480000 followed by a poll at 482000
surfaces the SegWit milestone at 481824 exactly once — no later poll from
the 482000 checkpoint can surface it again. -/
theorem c3_checkMilestones_crossing :
    (∀ st h, st.lastMilestoneCheckHeight = 0 →
      checkMilestones st h = { st with lastMilestoneCheckHeight := h }) ∧
    (∀ last h m, m ∈ getMilestonesBetween (last + 1) h ↔
      (m ∈ MILESTONES ∧ last < m.height ∧ m.height ≤ h)) ∧
    (∀ st h, (checkMilestones st h).currentMilestoneNotification =
      (surfacedMilestone st h).or st.currentMilestoneNotification) ∧
    (∀ st h, st.lastMilestoneCheckHeight ≠ 0 → st.lastMilestoneCheckHeight < h →
      (checkMilestones st h).lastMilestoneCheckHeight = h) ∧
    checkMilestones initialMilestoneState 480000 = afterFirstPoll ∧
    surfacedMilestone afterFirstPoll 482000 = some segwitMilestone ∧
    checkMilestones afterFirstPoll 482000 = afterSecondPoll ∧
    (∀ h, surfacedMilestone afterSecondPoll h ≠ some segwitMilestone) := by
  refine ⟨?_, ?_, checkMilestones_notif, ?_, by decide, by decide, by decide, ?_⟩
  · intro st h h0
    unfold checkMilestones
    rw [if_pos h0]
  · intro last h m
    simp [getMilestonesBetween, List.mem_filter, Nat.lt_iff_add_one_le]
  · intro st h h1 h2
    unfold checkMilestones
    rw [if_neg h1, if_neg (by omega)]
    cases hf : firstNotDismissed st.dismissedMilestones
      (getMilestonesBetween (st.lastMilestoneCheckHeight + 1) h) <;> rfl
  · intro h
    exact not_surfaced_of_checked afterSecondPoll h segwitMilestone (by decide)

/-- The genesis milestone is never the one surfaced by any step. -/
lemma genesis_never_surfaced (st : MilestoneState) (h : Nat) :
    surfacedMilestone st h ≠ some genesisMilestone :=
  not_surfaced_of_checked st h genesisMilestone (Nat.zero_le _)

/-- No single tracker step can make the notification the genesis milestone. -/
lemma genesis_notif_step (st : MilestoneState) (e : MilestoneEvent)
    (hst : st.currentMilestoneNotification ≠ some genesisMilestone) :
    (milestoneStep st e).currentMilestoneNotification ≠ some genesisMilestone := by
  cases e with
  | poll h =>
    simp only [milestoneStep]
    rw [checkMilestones_notif]
    cases hf : surfacedMilestone st h with
    | none => simpa [Option.or] using hst
    | some m =>
      simp only [Option.or]
      intro heq
      exact genesis_never_surfaced st h (hf.trans heq)
  | dismiss =>
    simp only [milestoneStep]
    unfold dismissMilestone
    cases hn : st.currentMilestoneNotification with
    | none => simp [hn]
    | some m => simp

/-- Along any event sequence from a state whose notification is not the
genesis milestone, it stays that way. -/
lemma genesis_notif_fold (events : List MilestoneEvent) :
    ∀ st : MilestoneState, st.currentMilestoneNotification ≠ some genesisMilestone →
      (events.foldl milestoneStep st).currentMilestoneNotification ≠
        some genesisMilestone := by
  induction events with
  | nil => intro st hst; exact hst
  | cons e rest ih =>
    intro st hst
    exact ih (milestoneStep st e) (genesis_notif_step st e hst)

/-- C9: the Genesis Block milestone at height 0 is never surfaced. The
checker treats a last-checked height of 0 as the no-baseline sentinel, so
a first check at height 0 leaves the tracker in its initial state; every
checked interval above a checkpoint excludes height 0; no step surfaces
the genesis milestone; and along every event sequence from the initial
state the shown notification is never the genesis milestone. -/
theorem c9_genesis_never_notified :
    checkMilestones initialMilestoneState 0 = initialMilestoneState ∧
    (∀ last h, genesisMilestone ∉ getMilestonesBetween (last + 1) h) ∧
    (∀ st h, surfacedMilestone st h ≠ some genesisMilestone) ∧
    (∀ events : List MilestoneEvent,
      (events.foldl milestoneStep initialMilestoneState).currentMilestoneNotification ≠
        some genesisMilestone) := by
  refine ⟨by decide, ?_, genesis_never_surfaced, ?_⟩
  · intro last h hmem
    simp only [getMilestonesBetween] at hmem
    have hp := (List.mem_filter.mp hmem).2
    simp only [Bool.and_eq_true, decide_eq_true_eq, genesisMilestone] at hp
    omega
  · intro events
    exact genesis_notif_fold events initialMilestoneState (by decide)

/-- After markComplete there is never an open session: an open one is
closed by the embedded endSession call. -/
lemma markComplete_currentSession (p : SessionHistory) (b : Nat) (t : Int) :
    (markComplete p b t).1.currentSession = none := by
  cases hc : p.1.currentSession <;> simp [markComplete, endSession, hc]

/-- C4 counterexample: from the empty ledger, markComplete at time 1000
followed by markComplete with the same totalBlocks at time 2000 changes
the state again — the completion record is restamped with the later time,
so a second markComplete while a completion record exists is not a no-op. -/
theorem c4_markComplete_not_noop :
    markComplete (markComplete (emptySessionHistoryState, emptySessionStorage)
        100 1000) 100 2000 ≠
      markComplete (emptySessionHistoryState, emptySessionStorage) 100 1000 := by
  decide

/-- C4 amended: a second markComplete with the same totalBlocks is not a
strict no-op — it restamps completedAt with the later call time — but it
is idempotent on everything the completion measures: the session list
gains no entry, the single completion record is recomputed from that
unchanged list, so totalSessions, totalBlocks and totalTimeMs are exactly
those of the first call, and the persisted session list still equals the
in-memory one. -/
theorem c4_markComplete_idempotent_totals :
    ∀ (p : SessionHistory) (b : Nat) (t1 t2 : Int),
      (markComplete (markComplete p b t1) b t2).1.sessions =
        (markComplete p b t1).1.sessions ∧
      (markComplete p b t1).1.completion =
        some { completedAt := t1,
               totalSessions := (markComplete p b t1).1.sessions.length,
               totalBlocks := b,
               totalTimeMs := sessionsTotalTime (markComplete p b t1).1.sessions } ∧
      (markComplete (markComplete p b t1) b t2).1.completion =
        some { completedAt := t2,
               totalSessions := (markComplete p b t1).1.sessions.length,
               totalBlocks := b,
               totalTimeMs := sessionsTotalTime (markComplete p b t1).1.sessions } ∧
      (markComplete (markComplete p b t1) b t2).2.storedSessions =
        some ((markComplete p b t1).1.sessions) := by
  intro p b t1 t2
  cases hc : p.1.currentSession <;>
    exact ⟨by simp [markComplete, endSession, hc, saveState],
           by simp [markComplete, endSession, hc, saveState],
           by simp [markComplete, endSession, hc, saveState],
           by simp [markComplete, endSession, hc, saveState]⟩

/-- C8 counterexample: startSession from the empty ledger moves the
in-memory last-known height to 500 but writes nothing to storage, so the
stored scalar does not equal the in-memory one after the operation. -/
theorem c8_startSession_not_persisted :
    (startSession (emptySessionHistoryState, emptySessionStorage)
        500 800000 "s1" 1000).1.lastKnownHeight = 500 ∧
    (startSession (emptySessionHistoryState, emptySessionStorage)
        500 800000 "s1" 1000).2.storedLastHeight ≠ some 500 := by
  decide

/-- C8 amended: updateProgress and markComplete write the resulting state
through to storage before returning, and so does endSession whenever a
session is open (its only mutating case); startSession, however, returns
the storage untouched — the session start and the moved last-known height
are only persisted by a later write-through operation. -/
theorem c8_write_through :
    (∀ (p : SessionHistory) (b : Nat) (pr : Rat),
      storageMatches (updateProgress p b pr).1 (updateProgress p b pr).2) ∧
    (∀ (p : SessionHistory) (b : Nat) (now : Int) (cs : SyncSession),
      p.1.currentSession = some cs →
        storageMatches (endSession p b now).1 (endSession p b now).2) ∧
    (∀ (p : SessionHistory) (b : Nat) (now : Int),
      storageMatches (markComplete p b now).1 (markComplete p b now).2) ∧
    (∀ (p : SessionHistory) (cb nh : Nat) (sid : String) (now : Int),
      (startSession p cb nh sid now).2 = p.2) := by
  refine ⟨?_, ?_, ?_, ?_⟩
  · intro p b pr
    simp [updateProgress, saveState, storageMatches]
  · intro p b now cs hc
    simp [endSession, hc, saveState, storageMatches]
  · intro p b now
    cases hc : p.1.currentSession <;>
      simp [markComplete, endSession, hc, saveState, storageMatches]
  · intro p cb nh sid now
    cases hc : p.1.currentSession <;> simp [startSession, hc]

/-- C5: detectMode is a total function of the pair (stats, info): absent
stats give unknown; an observer mode tag gives observer regardless of info;
a full mode tag gives validate-lite when info reports pruned, and
validate-archival when info reports unpruned or is absent; any other mode
tag gives unknown. -/
theorem c5_detectMode_cases :
    (∀ info, detectMode none info = .unknown) ∧
    (∀ s info, s.mode = "observer" → detectMode (some s) info = .observer) ∧
    (∀ s i, s.mode = "full" → i.pruned = true →
      detectMode (some s) (some i) = .validateLite) ∧
    (∀ s i, s.mode = "full" → i.pruned = false →
      detectMode (some s) (some i) = .validateArchival) ∧
    (∀ s, s.mode = "full" → detectMode (some s) none = .validateArchival) ∧
    (∀ s info, s.mode ≠ "observer" → s.mode ≠ "full" →
      detectMode (some s) info = .unknown) := by
  refine ⟨fun info => rfl, ?_, ?_, ?_, ?_, ?_⟩
  · intro s info h
    simp [detectMode, h]
  · intro s i h hp
    simp [detectMode, h, hp]
  · intro s i h hp
    simp [detectMode, h, hp]
  · intro s h
    simp [detectMode, h]
  · intro s info h1 h2
    simp [detectMode, h1, h2]

/-- C10: disconnect sets the status to disconnected, clears the cached
stats, and leaves every other field of the connection state unchanged —
in particular a previously recorded lastError survives. -/
theorem c10_disconnect_frame :
    ∀ s : ConnectionState,
      (disconnect s).status = .disconnected ∧
      (disconnect s).stats = none ∧
      (disconnect s).config = s.config ∧
      (disconnect s).lastError = s.lastError ∧
      (disconnect s).lastCheck = s.lastCheck ∧
      (disconnect s).blockHeight = s.blockHeight ∧
      (disconnect s).lastBlockHeightFetch = s.lastBlockHeightFetch ∧
      (disconnect s).networkHashrate = s.networkHashrate := by
  intro s
  exact ⟨rfl, rfl, rfl, rfl, rfl, rfl, rfl, rfl⟩

/-- C7 counterexample: with a stored block height of zero and a fetch
performed one second ago — well inside the 30 second window — a further
fetchExternalData call issues the network requests and changes the state,
so calls inside the window are not no-ops regardless of the previously
fetched values. -/
theorem c7_zero_height_refetches :
    (fetchExternalData zeroHeightState 2000 800000 500).2 = true ∧
    (fetchExternalData zeroHeightState 2000 800000 500).1 ≠ zeroHeightState := by
  decide

/-- C7 amended: a fetchExternalData call inside an open 30 second window
is a no-op — no request, state returned unchanged — provided the stored
block height is non-zero; a stored height of zero disables the window and
the call fetches again. -/
theorem c7_fetchExternalData_window :
    ∀ (s : ConnectionState) (now : Int) (h : Nat) (r : Rat),
      s.blockHeight ≠ 0 →
      now - s.lastBlockHeightFetch < BLOCK_HEIGHT_REFRESH_INTERVAL →
      fetchExternalData s now h r = (s, false) := by
  intro s now h r h1 h2
  unfold fetchExternalData
  rw [if_pos ⟨h1, h2⟩]

/-- C7 witness: the no-op case at a concrete connected state one second
after its last fetch. -/
theorem c7_fetchExternalData_window_witness :
    fetchExternalData connectedState 2000 123 456 = (connectedState, false) :=
  c7_fetchExternalData_window connectedState 2000 123 456 (by decide) (by decide)

/-- C6 counterexample: on the single-call path a passing response whose
result member is absent is not treated as a failure — the absent value is
returned to the caller as a success. -/
theorem c6_missing_result_passes_single :
    rpcCallResult (α := Nat) { result := .missing, error := none, id := 1 } =
      .ok none := by
  rfl

/-- C6 amended: both paths reject a JSON-null result as a Null-Result
failure, and the batched path also rejects an absent result, its success
values always coming from a present result member; but the single-call
path returns an absent result member to its caller as a successful
absent value instead of failing. -/
theorem c6_null_result_handling :
    (∀ (α : Type) (resp : RPCResponse α), resp.error = none → resp.result = .null →
      rpcCallResult resp = .error .nullResult) ∧
    (∀ (α : Type) (i : Nat) (resp : RPCResponse α), resp.error = none →
      (resp.result = .null ∨ resp.result = .missing) →
      rpcBatchItem i resp = .error (.batchNullResult i)) ∧
    (∀ (α : Type) (i : Nat) (resp : RPCResponse α) (v : α),
      rpcBatchItem i resp = .ok v → resp.result = .value v) ∧
    (∀ (α : Type) (resp : RPCResponse α), resp.error = none → resp.result = .missing →
      rpcCallResult resp = .ok none) := by
  refine ⟨?_, ?_, ?_, ?_⟩
  · intro α resp he hr
    simp [rpcCallResult, he, hr]
  · intro α i resp he hr
    rcases hr with hr | hr <;> simp [rpcBatchItem, he, hr]
  · intro α i resp v hok
    cases he : resp.error with
    | some e => simp [rpcBatchItem, he] at hok
    | none =>
      cases hr : resp.result with
      | missing => simp [rpcBatchItem, he, hr] at hok
      | null => simp [rpcBatchItem, he, hr] at hok
      | value w =>
        simp only [rpcBatchItem, he, hr, Except.ok.injEq] at hok
        rw [hok]
  · intro α resp he hr
    simp [rpcCallResult, he, hr]

end BitcoinEcho
